import Mathlib

/-!
Verification of `src/analytical_engine/core/object/graph_utils.h` from the
GraphScope analytical engine: the `PropertyGraphUtils` plugin invoker, which
opens a dynamic library, resolves five named entry points, and forwards
operation calls to them.

Shallow embedding conventions:
* C++ raw function pointers (nullable) become `Option` of a Lean function type;
  `none` models `nullptr`.
* `bl::result<T>` (boost.leaf) becomes `Except GSError T`; the `BOOST_LEAF_*`
  macros become explicit short-circuiting matches, exactly in source order.
* An entry point of C++ type `void F(args..., bl::result<T>& slot)` becomes a
  Lean function `args → slot → slot`: it receives the initial value of the
  output slot and produces the value it leaves there.
* Mutation of the object's fields is explicit state passing on the
  `PropertyGraphUtils` structure; each method returns the final state, which
  reflects exactly the member assignments performed by the C++ body.
* `Init` additionally returns the ordered list of symbol names for which
  `get_func_ptr` was invoked, so that fail-fast (no resolution attempted after
  the first failure) is a provable statement.
* The `EXPERIMENTAL_ON` preprocessor flag is a `Bool` parameter of the two
  conversion methods (the only places the source mentions it); each concrete
  build fixes it to `true` or `false`.
-/

/-- Opaque model of `grape::CommSpec` (communication context), passed through
uninterpreted. -/
structure CommSpec where
  tag : Nat
deriving DecidableEq, Repr

/-- Opaque model of `vineyard::Client` (object-store client), passed through
uninterpreted. -/
structure Client where
  tag : Nat
deriving DecidableEq, Repr

/-- Opaque model of `rpc::GSParams` (parameter bag), passed through
uninterpreted. -/
structure GSParams where
  tag : Nat
deriving DecidableEq, Repr

/-- `vineyard::ObjectID` is a 64-bit identifier, used opaquely here. -/
abbrev ObjectID := Nat

/-- Opaque model of an `IFragmentWrapper` object (graph-fragment wrapper). -/
structure IFragmentWrapper where
  tag : Nat
deriving DecidableEq, Repr

/-- `std::shared_ptr<IFragmentWrapper>`: a nullable reference to a fragment
wrapper. -/
abbrev FragPtr := Option IFragmentWrapper

/-- Errors carried on the `bl::result` error channel at this boundary.
`libraryLoadError` and `symbolResolutionError` are the failures of `open_lib`
and `get_func_ptr`; `unsupportedOperation` models the error built by
`RETURN_GS_ERROR(vineyard::ErrorCode::kUnsupportedOperationError, msg)`;
`entryPointError` stands for any error produced by a plugin entry point
itself, which this layer treats as opaque. -/
inductive GSError where
  | libraryLoadError (libPath : String)
  | symbolResolutionError (libPath : String) (symbol : String)
  | unsupportedOperation (message : String)
  | entryPointError (payload : Nat) (message : String)
deriving DecidableEq, Repr

/-- `bl::result<T>`. -/
abbrev BLResult (α : Type) := Except GSError α

/-- The output-slot type shared by all five entry points:
`bl::result<std::shared_ptr<IFragmentWrapper>>`. -/
abbrev SlotT := BLResult FragPtr

/-- The value of a default-constructed
`bl::result<std::shared_ptr<IFragmentWrapper>>`: a success state holding a
value-initialized (null) shared pointer. Each operation method constructs its
output slot this way before handing it to the entry point. -/
def emptySlot : SlotT := Except.ok none

/-- Signature of the `LoadGraph` entry point (`LoadGraphT` in the source):
`(comm_spec, client, graph_name, params, slot)`; the final component is the
slot's initial value and the result is what the entry point leaves in it. -/
abbrev LoadGraphT := CommSpec → Client → String → GSParams → SlotT → SlotT

/-- Signature of the `AddVerticesToGraph` entry point
(`AddVerticesToGraphT`). -/
abbrev AddVerticesToGraphT :=
  ObjectID → CommSpec → Client → String → GSParams → SlotT → SlotT

/-- Signature of the `AddEdgesToGraph` entry point (`AddEdgesToGraphT`). -/
abbrev AddEdgesToGraphT :=
  ObjectID → CommSpec → Client → String → GSParams → SlotT → SlotT

/-- Signature of the `ToArrowFragment` entry point (`ToArrowFragmentT`):
`(client, comm_spec, wrapper_in, dst_graph_name, slot)`. -/
abbrev ToArrowFragmentT := Client → CommSpec → FragPtr → String → SlotT → SlotT

/-- Signature of the `ToDynamicFragment` entry point (`ToDynamicFragmentT`):
`(comm_spec, wrapper_in, dst_graph_name, slot)`. -/
abbrev ToDynamicFragmentT := CommSpec → FragPtr → String → SlotT → SlotT

/-- Model of the dynamic library named by `lib_path_`: whether `dlopen`
succeeds on it, and, for each of the five required symbol names, the entry
point it exports under that name (`none` = symbol absent). The C++ export
table maps names to untyped `void*` later `reinterpret_cast` to the typed
pointer; the model keeps each entry at its cast-to type. -/
structure PluginLibrary where
  opens : Bool
  loadGraphSym : Option LoadGraphT
  addVerticesSym : Option AddVerticesToGraphT
  addEdgesSym : Option AddEdgesToGraphT
  toArrowSym : Option ToArrowFragmentT
  toDynamicSym : Option ToDynamicFragmentT

/-- The state of a `PropertyGraphUtils` object: its private fields. The
`id` comes from the `GSObject` base. Function-pointer members are `Option`s;
`none` models the `nullptr` the constructor writes. -/
structure PropertyGraphUtils where
  id : String
  lib_path_ : String
  dl_handle_ : Option Unit
  load_graph_ : Option LoadGraphT
  add_vertices_to_graph_ : Option AddVerticesToGraphT
  add_edges_to_graph_ : Option AddEdgesToGraphT
  to_arrow_fragment_ : Option ToArrowFragmentT
  to_dynamic_fragment_ : Option ToDynamicFragmentT

/-- The `PropertyGraphUtils(id, lib_path)` constructor: stores the id and the
library path and initializes the handle and all five bindings to `nullptr`. -/
def mkPropertyGraphUtils (id lib_path : String) : PropertyGraphUtils :=
  { id := id
    lib_path_ := lib_path
    dl_handle_ := none
    load_graph_ := none
    add_vertices_to_graph_ := none
    add_edges_to_graph_ := none
    to_arrow_fragment_ := none
    to_dynamic_fragment_ := none }

/-- Modelled from the spec: `open_lib` lives in `core/utils/lib_utils.h`,
which is not under `src/`. Per the spec it opens the dynamic library at the
configured path, producing a library handle, or fails with
`LibraryLoadError`. Whether the open succeeds is the `opens` field of the
`PluginLibrary` environment. -/
def open_lib (lib : PluginLibrary) (path : String) : BLResult Unit :=
  if lib.opens then Except.ok () else Except.error (GSError.libraryLoadError path)

/-- Modelled from the spec: `get_func_ptr` lives in `core/utils/lib_utils.h`,
which is not under `src/`. Per the spec it resolves a function pointer by
symbol name from the opened library; on a missing symbol it fails with
`SymbolResolutionError` naming the missing symbol and the library path. The
`sym` argument is the library's export-table entry for `name`, already at the
type the caller casts the returned `void*` to. -/
def get_func_ptr {α : Type} (lib_path : String) (sym : Option α)
    (name : String) : BLResult α :=
  match sym with
  | some f => Except.ok f
  | none => Except.error (GSError.symbolResolutionError lib_path name)

/-- Result of `Init`: the returned `bl::result<void>`, the final object state
(reflecting every member assignment executed before returning), and the
ordered list of symbol names for which `get_func_ptr` was invoked. -/
structure InitOutcome where
  result : BLResult Unit
  state : PropertyGraphUtils
  resolved : List String

/-- `PropertyGraphUtils::Init()`: opens the library at `lib_path_`, then
resolves `LoadGraph`, `AddVerticesToGraph`, `AddEdgesToGraph`,
`ToArrowFragment`, `ToDynamicFragment` in that order, assigning each binding
as soon as it resolves; every `BOOST_LEAF_*` step returns the error
immediately on failure, leaving the assignments already made in place. -/
def PropertyGraphUtils.Init (lib : PluginLibrary) (s : PropertyGraphUtils) :
    InitOutcome :=
  match open_lib lib s.lib_path_ with
  | Except.error e => ⟨Except.error e, s, []⟩
  | Except.ok h =>
    let s1 := { s with dl_handle_ := some h }
    match get_func_ptr s1.lib_path_ lib.loadGraphSym "LoadGraph" with
    | Except.error e => ⟨Except.error e, s1, ["LoadGraph"]⟩
    | Except.ok f1 =>
      let s2 := { s1 with load_graph_ := some f1 }
      match get_func_ptr s2.lib_path_ lib.addVerticesSym "AddVerticesToGraph" with
      | Except.error e => ⟨Except.error e, s2, ["LoadGraph", "AddVerticesToGraph"]⟩
      | Except.ok f2 =>
        let s3 := { s2 with add_vertices_to_graph_ := some f2 }
        match get_func_ptr s3.lib_path_ lib.addEdgesSym "AddEdgesToGraph" with
        | Except.error e =>
          ⟨Except.error e, s3, ["LoadGraph", "AddVerticesToGraph", "AddEdgesToGraph"]⟩
        | Except.ok f3 =>
          let s4 := { s3 with add_edges_to_graph_ := some f3 }
          match get_func_ptr s4.lib_path_ lib.toArrowSym "ToArrowFragment" with
          | Except.error e =>
            ⟨Except.error e, s4,
              ["LoadGraph", "AddVerticesToGraph", "AddEdgesToGraph", "ToArrowFragment"]⟩
          | Except.ok f4 =>
            let s5 := { s4 with to_arrow_fragment_ := some f4 }
            match get_func_ptr s5.lib_path_ lib.toDynamicSym "ToDynamicFragment" with
            | Except.error e =>
              ⟨Except.error e, s5,
                ["LoadGraph", "AddVerticesToGraph", "AddEdgesToGraph",
                 "ToArrowFragment", "ToDynamicFragment"]⟩
            | Except.ok f5 =>
              let s6 := { s5 with to_dynamic_fragment_ := some f5 }
              ⟨Except.ok (), s6,
                ["LoadGraph", "AddVerticesToGraph", "AddEdgesToGraph",
                 "ToArrowFragment", "ToDynamicFragment"]⟩

/-- What a call of an operation method does: either it returns a
`bl::result` value, or the C++ body invoked an unresolved (`nullptr`)
function-pointer member — undefined behavior, which the embedding makes
explicit as `nullDeref` rather than assigning it a return value. -/
inductive MethodOutcome where
  | ret (value : SlotT)
  | nullDeref
deriving Repr

/-- Result of one operation-method call: the outcome, the final object state
(reflecting the member assignments of the method body — the source methods
perform none), and whether a resolved plugin entry point was actually
invoked. `invokedEntryPoint` is `false` on `nullDeref` (no entry point
exists to run) and on the compiled-out `UnsupportedOperation` path. -/
structure CallResult where
  outcome : MethodOutcome
  state : PropertyGraphUtils
  invokedEntryPoint : Bool

/-- `PropertyGraphUtils::LoadGraph(comm_spec, client, graph_name, params)`:
default-constructs an output slot, calls the `load_graph_` binding with the
four inputs and the slot, and returns the slot. The C++ body calls
`load_graph_` unconditionally; if the binding is still `nullptr` that call is
a null-pointer dereference. -/
def PropertyGraphUtils.LoadGraph (s : PropertyGraphUtils) (comm_spec : CommSpec)
    (client : Client) (graph_name : String) (params : GSParams) : CallResult :=
  match s.load_graph_ with
  | none => ⟨MethodOutcome.nullDeref, s, false⟩
  | some f =>
    ⟨MethodOutcome.ret (f comm_spec client graph_name params emptySlot), s, true⟩

/-- `PropertyGraphUtils::AddVerticesToGraph(frag_id, comm_spec, client,
graph_name, params)`: same shape as `LoadGraph` with the fragment id as an
extra first input, through the `add_vertices_to_graph_` binding. -/
def PropertyGraphUtils.AddVerticesToGraph (s : PropertyGraphUtils)
    (frag_id : ObjectID) (comm_spec : CommSpec) (client : Client)
    (graph_name : String) (params : GSParams) : CallResult :=
  match s.add_vertices_to_graph_ with
  | none => ⟨MethodOutcome.nullDeref, s, false⟩
  | some f =>
    ⟨MethodOutcome.ret (f frag_id comm_spec client graph_name params emptySlot),
      s, true⟩

/-- `PropertyGraphUtils::AddEdgesToGraph(frag_id, comm_spec, client,
graph_name, params)`: same shape as `AddVerticesToGraph`, through the
`add_edges_to_graph_` binding. -/
def PropertyGraphUtils.AddEdgesToGraph (s : PropertyGraphUtils)
    (frag_id : ObjectID) (comm_spec : CommSpec) (client : Client)
    (graph_name : String) (params : GSParams) : CallResult :=
  match s.add_edges_to_graph_ with
  | none => ⟨MethodOutcome.nullDeref, s, false⟩
  | some f =>
    ⟨MethodOutcome.ret (f frag_id comm_spec client graph_name params emptySlot),
      s, true⟩

/-- The message of the error returned by the conversion methods in a build
with `EXPERIMENTAL_ON` not defined. -/
def experimentalOffMsg : String := "GS is compiled with EXPERIMENTAL_ON=OFF"

/-- `PropertyGraphUtils::ToArrowFragment(client, comm_spec, wrapper_in,
dst_graph_name)`. `experimentalOn` is the build-time `EXPERIMENTAL_ON` flag:
when `true`, the body forwards to the `to_arrow_fragment_` binding exactly
like the load methods; when `false`, the body is
`RETURN_GS_ERROR(kUnsupportedOperationError, ...)` (modelled from the spec:
the `RETURN_GS_ERROR` macro is declared outside `src/`; per the spec it
returns an error of that kind with the given message) and nothing else. -/
def PropertyGraphUtils.ToArrowFragment (experimentalOn : Bool)
    (s : PropertyGraphUtils) (client : Client) (comm_spec : CommSpec)
    (wrapper_in : FragPtr) (dst_graph_name : String) : CallResult :=
  if experimentalOn then
    match s.to_arrow_fragment_ with
    | none => ⟨MethodOutcome.nullDeref, s, false⟩
    | some f =>
      ⟨MethodOutcome.ret (f client comm_spec wrapper_in dst_graph_name emptySlot),
        s, true⟩
  else
    ⟨MethodOutcome.ret
        (Except.error (GSError.unsupportedOperation experimentalOffMsg)),
      s, false⟩

/-- `PropertyGraphUtils::ToDynamicFragment(comm_spec, wrapper_in,
dst_graph_name)`: same gating as `ToArrowFragment`, through the
`to_dynamic_fragment_` binding (which does not take the client). -/
def PropertyGraphUtils.ToDynamicFragment (experimentalOn : Bool)
    (s : PropertyGraphUtils) (comm_spec : CommSpec) (wrapper_in : FragPtr)
    (dst_graph_name : String) : CallResult :=
  if experimentalOn then
    match s.to_dynamic_fragment_ with
    | none => ⟨MethodOutcome.nullDeref, s, false⟩
    | some f =>
      ⟨MethodOutcome.ret (f comm_spec wrapper_in dst_graph_name emptySlot),
        s, true⟩
  else
    ⟨MethodOutcome.ret
        (Except.error (GSError.unsupportedOperation experimentalOffMsg)),
      s, false⟩

/-- The five required symbol names in the order `Init` resolves them. -/
def requiredOrder : List String :=
  ["LoadGraph", "AddVerticesToGraph", "AddEdgesToGraph",
   "ToArrowFragment", "ToDynamicFragment"]

/-- Whether the library exports the required symbol of the given name. -/
def exportsSym (lib : PluginLibrary) (name : String) : Bool :=
  match name with
  | "LoadGraph" => lib.loadGraphSym.isSome
  | "AddVerticesToGraph" => lib.addVerticesSym.isSome
  | "AddEdgesToGraph" => lib.addEdgesSym.isSome
  | "ToArrowFragment" => lib.toArrowSym.isSome
  | "ToDynamicFragment" => lib.toDynamicSym.isSome
  | _ => false

/-- The first required symbol, in resolution order, that the library does not
export (if any). -/
def firstMissing (lib : PluginLibrary) : Option String :=
  requiredOrder.find? (fun n => !(exportsSym lib n))

/-- Whether the object state holds a resolved binding for the required symbol
of the given name. -/
def bindingIsSome (s : PropertyGraphUtils) (name : String) : Bool :=
  match name with
  | "LoadGraph" => s.load_graph_.isSome
  | "AddVerticesToGraph" => s.add_vertices_to_graph_.isSome
  | "AddEdgesToGraph" => s.add_edges_to_graph_.isSome
  | "ToArrowFragment" => s.to_arrow_fragment_.isSome
  | "ToDynamicFragment" => s.to_dynamic_fragment_.isSome
  | _ => false

/-! Concrete stub entry points and libraries, used by the witness theorems. -/

/-- Stub `LoadGraph` entry point: writes fragment 1 into the slot. -/
def epLoadGraph : LoadGraphT := fun _ _ _ _ _ => Except.ok (some ⟨1⟩)

/-- Stub `AddVerticesToGraph` entry point: writes fragment 2 into the slot. -/
def epAddVertices : AddVerticesToGraphT := fun _ _ _ _ _ _ => Except.ok (some ⟨2⟩)

/-- Stub `AddEdgesToGraph` entry point: writes its own error into the slot. -/
def epAddEdges : AddEdgesToGraphT :=
  fun _ _ _ _ _ _ => Except.error (GSError.entryPointError 3 "edge stream broken")

/-- Stub `ToArrowFragment` entry point: writes fragment 4 into the slot. -/
def epToArrow : ToArrowFragmentT := fun _ _ _ _ _ => Except.ok (some ⟨4⟩)

/-- Stub `ToDynamicFragment` entry point: writes fragment 5 into the slot. -/
def epToDynamic : ToDynamicFragmentT := fun _ _ _ _ => Except.ok (some ⟨5⟩)

/-- A library that opens and exports all five required symbols. -/
def fullLib : PluginLibrary :=
  ⟨true, some epLoadGraph, some epAddVertices, some epAddEdges,
    some epToArrow, some epToDynamic⟩

/-- A library that opens but exports only `LoadGraph` and
`AddVerticesToGraph` (the scenario of the spec). -/
def libOnlyTwo : PluginLibrary :=
  ⟨true, some epLoadGraph, some epAddVertices, none, none, none⟩

/-- A library path that cannot be opened at all. -/
def libNoOpen : PluginLibrary := ⟨false, none, none, none, none, none⟩

/-- A library that opens and exports everything except `ToArrowFragment`. -/
def libNoToArrow : PluginLibrary :=
  ⟨true, some epLoadGraph, some epAddVertices, some epAddEdges,
    none, some epToDynamic⟩

/-- A library that opens and exports everything except `ToDynamicFragment`. -/
def libNoToDynamic : PluginLibrary :=
  ⟨true, some epLoadGraph, some epAddVertices, some epAddEdges,
    some epToArrow, none⟩

/-- A fully initialized object state: every binding resolved to the
corresponding stub entry point. -/
def readyState : PropertyGraphUtils :=
  { mkPropertyGraphUtils "plugin-1" "/opt/libproperty_graph_frame.so" with
    dl_handle_ := some ()
    load_graph_ := some epLoadGraph
    add_vertices_to_graph_ := some epAddVertices
    add_edges_to_graph_ := some epAddEdges
    to_arrow_fragment_ := some epToArrow
    to_dynamic_fragment_ := some epToDynamic }

/-! Claim theorems. -/

/-- C3: in a build with `EXPERIMENTAL_ON` not defined, every call to
`ToArrowFragment` or `ToDynamicFragment` returns an `UnsupportedOperation`
error whose message states the build-configuration cause, does not invoke any
plugin entry point, and behaves this way regardless of the state of the
bindings (hence regardless of what the library exports). -/
theorem conversion_disabled_build_unsupported (s : PropertyGraphUtils)
    (client : Client) (comm_spec : CommSpec) (wrapper_in : FragPtr)
    (dst_graph_name : String) :
    PropertyGraphUtils.ToArrowFragment false s client comm_spec wrapper_in
        dst_graph_name =
      ⟨MethodOutcome.ret
          (Except.error (GSError.unsupportedOperation experimentalOffMsg)),
        s, false⟩ ∧
    PropertyGraphUtils.ToDynamicFragment false s comm_spec wrapper_in
        dst_graph_name =
      ⟨MethodOutcome.ret
          (Except.error (GSError.unsupportedOperation experimentalOffMsg)),
        s, false⟩ ∧
    experimentalOffMsg = "GS is compiled with EXPERIMENTAL_ON=OFF" := by
  refine ⟨rfl, rfl, rfl⟩

/-- C4 counterexample: on a freshly constructed object (before any `Init`),
`LoadGraph` is not rejected with an error result; the body invokes the null
`load_graph_` binding (undefined behavior), so the claim that a pre-`Init`
call "is rejected as a caller-error rather than silently dereferencing an
unresolved (null) binding" is false at this concrete input. -/
theorem preinit_call_not_rejected :
    (PropertyGraphUtils.LoadGraph
        (mkPropertyGraphUtils "plugin-1" "/opt/libproperty_graph_frame.so")
        ⟨0⟩ ⟨0⟩ "g1" ⟨0⟩).outcome = MethodOutcome.nullDeref ∧
    ∀ v : SlotT,
      (PropertyGraphUtils.LoadGraph
          (mkPropertyGraphUtils "plugin-1" "/opt/libproperty_graph_frame.so")
          ⟨0⟩ ⟨0⟩ "g1" ⟨0⟩).outcome ≠ MethodOutcome.ret v := by
  exact ⟨rfl, fun v h => MethodOutcome.noConfusion h⟩

/-- C4 amended: calling any operation method before a successful `Init`
performs no runtime rejection check; every such call dereferences the
corresponding unresolved (null) binding — the "call `Init` first" contract is
documentation-level only. (Conversions shown in the experimental build; in
the non-experimental build they return `UnsupportedOperation` without
touching any binding.) -/
theorem preinit_call_derefs_null_binding (id path : String)
    (frag_id : ObjectID) (comm_spec : CommSpec) (client : Client)
    (graph_name : String) (params : GSParams) (wrapper_in : FragPtr)
    (dst_graph_name : String) :
    (PropertyGraphUtils.LoadGraph (mkPropertyGraphUtils id path)
        comm_spec client graph_name params).outcome =
      MethodOutcome.nullDeref ∧
    (PropertyGraphUtils.AddVerticesToGraph (mkPropertyGraphUtils id path)
        frag_id comm_spec client graph_name params).outcome =
      MethodOutcome.nullDeref ∧
    (PropertyGraphUtils.AddEdgesToGraph (mkPropertyGraphUtils id path)
        frag_id comm_spec client graph_name params).outcome =
      MethodOutcome.nullDeref ∧
    (PropertyGraphUtils.ToArrowFragment true (mkPropertyGraphUtils id path)
        client comm_spec wrapper_in dst_graph_name).outcome =
      MethodOutcome.nullDeref ∧
    (PropertyGraphUtils.ToDynamicFragment true (mkPropertyGraphUtils id path)
        comm_spec wrapper_in dst_graph_name).outcome =
      MethodOutcome.nullDeref := by
  refine ⟨rfl, rfl, rfl, rfl, rfl⟩

/-- C5: in a build with `EXPERIMENTAL_ON` defined, when the conversion
binding is resolved, `ToArrowFragment` / `ToDynamicFragment` invokes it on
exactly the caller's inputs together with the default-constructed (empty)
output slot, and returns exactly the slot value the entry point produced,
with the object state unchanged. -/
theorem conversion_enabled_build_passthrough (s : PropertyGraphUtils)
    (f : ToArrowFragmentT) (g : ToDynamicFragmentT) (client : Client)
    (comm_spec : CommSpec) (wrapper_in : FragPtr) (dst_graph_name : String)
    (hf : s.to_arrow_fragment_ = some f)
    (hg : s.to_dynamic_fragment_ = some g) :
    PropertyGraphUtils.ToArrowFragment true s client comm_spec wrapper_in
        dst_graph_name =
      ⟨MethodOutcome.ret (f client comm_spec wrapper_in dst_graph_name
          emptySlot), s, true⟩ ∧
    PropertyGraphUtils.ToDynamicFragment true s comm_spec wrapper_in
        dst_graph_name =
      ⟨MethodOutcome.ret (g comm_spec wrapper_in dst_graph_name emptySlot),
        s, true⟩ := by
  constructor
  · simp [PropertyGraphUtils.ToArrowFragment, hf]
  · simp [PropertyGraphUtils.ToDynamicFragment, hg]

/-- C5 witness: the pass-through theorem applied to the fully initialized
state with the stub entry points, at concrete inputs. -/
theorem conversion_enabled_build_passthrough_witness :
    readyState.to_arrow_fragment_ = some epToArrow ∧
    readyState.to_dynamic_fragment_ = some epToDynamic ∧
    (PropertyGraphUtils.ToArrowFragment true readyState ⟨0⟩ ⟨0⟩
        (some ⟨9⟩) "dst" =
      ⟨MethodOutcome.ret (epToArrow ⟨0⟩ ⟨0⟩ (some ⟨9⟩) "dst" emptySlot),
        readyState, true⟩ ∧
    PropertyGraphUtils.ToDynamicFragment true readyState ⟨0⟩
        (some ⟨9⟩) "dst" =
      ⟨MethodOutcome.ret (epToDynamic ⟨0⟩ (some ⟨9⟩) "dst" emptySlot),
        readyState, true⟩) :=
  ⟨rfl, rfl,
    conversion_enabled_build_passthrough readyState epToArrow epToDynamic
      ⟨0⟩ ⟨0⟩ (some ⟨9⟩) "dst" rfl rfl⟩

/-- C8: after the bindings are resolved, `LoadGraph`, `AddVerticesToGraph`
and `AddEdgesToGraph` each invoke their resolved entry point on exactly the
caller's inputs (plus the fragment id for the two mutation operations)
together with the default-constructed (empty) output slot, and return exactly
the slot value the entry point produced — success value or entry-point error
alike — with the object state unchanged. -/
theorem load_methods_passthrough (s : PropertyGraphUtils) (f : LoadGraphT)
    (g : AddVerticesToGraphT) (k : AddEdgesToGraphT) (frag_id : ObjectID)
    (comm_spec : CommSpec) (client : Client) (graph_name : String)
    (params : GSParams) (hf : s.load_graph_ = some f)
    (hg : s.add_vertices_to_graph_ = some g)
    (hk : s.add_edges_to_graph_ = some k) :
    PropertyGraphUtils.LoadGraph s comm_spec client graph_name params =
      ⟨MethodOutcome.ret (f comm_spec client graph_name params emptySlot),
        s, true⟩ ∧
    PropertyGraphUtils.AddVerticesToGraph s frag_id comm_spec client
        graph_name params =
      ⟨MethodOutcome.ret
          (g frag_id comm_spec client graph_name params emptySlot), s, true⟩ ∧
    PropertyGraphUtils.AddEdgesToGraph s frag_id comm_spec client
        graph_name params =
      ⟨MethodOutcome.ret
          (k frag_id comm_spec client graph_name params emptySlot),
        s, true⟩ := by
  refine ⟨?_, ?_, ?_⟩
  · simp [PropertyGraphUtils.LoadGraph, hf]
  · simp [PropertyGraphUtils.AddVerticesToGraph, hg]
  · simp [PropertyGraphUtils.AddEdgesToGraph, hk]

/-- C8 witness: the pass-through theorem applied to the fully initialized
state with the stub entry points — `LoadGraph` returns the stub's fragment
and `AddEdgesToGraph` forwards the stub's own error unchanged. -/
theorem load_methods_passthrough_witness :
    readyState.load_graph_ = some epLoadGraph ∧
    readyState.add_vertices_to_graph_ = some epAddVertices ∧
    readyState.add_edges_to_graph_ = some epAddEdges ∧
    (PropertyGraphUtils.LoadGraph readyState ⟨0⟩ ⟨0⟩ "g1" ⟨0⟩ =
      ⟨MethodOutcome.ret (epLoadGraph ⟨0⟩ ⟨0⟩ "g1" ⟨0⟩ emptySlot),
        readyState, true⟩ ∧
    PropertyGraphUtils.AddVerticesToGraph readyState 42 ⟨0⟩ ⟨0⟩ "g1" ⟨0⟩ =
      ⟨MethodOutcome.ret (epAddVertices 42 ⟨0⟩ ⟨0⟩ "g1" ⟨0⟩ emptySlot),
        readyState, true⟩ ∧
    PropertyGraphUtils.AddEdgesToGraph readyState 42 ⟨0⟩ ⟨0⟩ "g1" ⟨0⟩ =
      ⟨MethodOutcome.ret (epAddEdges 42 ⟨0⟩ ⟨0⟩ "g1" ⟨0⟩ emptySlot),
        readyState, true⟩) :=
  ⟨rfl, rfl, rfl,
    load_methods_passthrough readyState epLoadGraph epAddVertices epAddEdges
      42 ⟨0⟩ ⟨0⟩ "g1" ⟨0⟩ rfl rfl rfl⟩

/-- C9: operation methods never write any member: for every state and every
input, each of the five methods (the conversions under either build flag)
leaves the whole object state — `lib_path_`, `dl_handle_` and all five
bindings — unchanged, so a binding once resolved is never re-resolved or
swapped by calling operations. -/
theorem operation_methods_preserve_state (s : PropertyGraphUtils) (b : Bool)
    (frag_id : ObjectID) (comm_spec : CommSpec) (client : Client)
    (graph_name : String) (params : GSParams) (wrapper_in : FragPtr)
    (dst_graph_name : String) :
    (PropertyGraphUtils.LoadGraph s comm_spec client graph_name
        params).state = s ∧
    (PropertyGraphUtils.AddVerticesToGraph s frag_id comm_spec client
        graph_name params).state = s ∧
    (PropertyGraphUtils.AddEdgesToGraph s frag_id comm_spec client
        graph_name params).state = s ∧
    (PropertyGraphUtils.ToArrowFragment b s client comm_spec wrapper_in
        dst_graph_name).state = s ∧
    (PropertyGraphUtils.ToDynamicFragment b s comm_spec wrapper_in
        dst_graph_name).state = s := by
  refine ⟨?_, ?_, ?_, ?_, ?_⟩
  · cases h : s.load_graph_ <;> simp [PropertyGraphUtils.LoadGraph, h]
  · cases h : s.add_vertices_to_graph_ <;>
      simp [PropertyGraphUtils.AddVerticesToGraph, h]
  · cases h : s.add_edges_to_graph_ <;>
      simp [PropertyGraphUtils.AddEdgesToGraph, h]
  · cases b <;> cases h : s.to_arrow_fragment_ <;>
      simp [PropertyGraphUtils.ToArrowFragment, h]
  · cases b <;> cases h : s.to_dynamic_fragment_ <;>
      simp [PropertyGraphUtils.ToDynamicFragment, h]

/-- C7: for a library path that cannot be opened, `Init` fails with a
`LibraryLoadError`, performs no `get_func_ptr` call at all (empty resolution
trace), and leaves the object state untouched. -/
theorem init_open_failure_no_resolution (lib : PluginLibrary)
    (s : PropertyGraphUtils) (hopen : lib.opens = false) :
    PropertyGraphUtils.Init lib s =
      ⟨Except.error (GSError.libraryLoadError s.lib_path_), s, []⟩ := by
  simp [PropertyGraphUtils.Init, open_lib, hopen]

/-- C7 witness: the open-failure theorem applied to the concrete
non-opening library. -/
theorem init_open_failure_no_resolution_witness :
    libNoOpen.opens = false ∧
    PropertyGraphUtils.Init libNoOpen
        (mkPropertyGraphUtils "plugin-1" "/opt/nonexistent.so") =
      ⟨Except.error (GSError.libraryLoadError "/opt/nonexistent.so"),
        mkPropertyGraphUtils "plugin-1" "/opt/nonexistent.so", []⟩ :=
  ⟨rfl, init_open_failure_no_resolution libNoOpen
    (mkPropertyGraphUtils "plugin-1" "/opt/nonexistent.so") rfl⟩

/-- C1: whenever the library opens but at least one required symbol is
missing, `Init` returns a `SymbolResolutionError` naming the library path and
the FIRST missing symbol in the fixed order `LoadGraph`,
`AddVerticesToGraph`, `AddEdgesToGraph`, `ToArrowFragment`,
`ToDynamicFragment`, and the resolution trace is exactly the successfully
resolved ones followed by that first missing one — no symbol after the first
missing one is ever looked up. (In particular, a library exporting only
`LoadGraph` and `AddVerticesToGraph` fails on `AddEdgesToGraph`; see the
witness.) -/
theorem init_fail_fast_first_missing (lib : PluginLibrary)
    (s : PropertyGraphUtils) (name : String) (hopen : lib.opens = true)
    (hmiss : firstMissing lib = some name) :
    (PropertyGraphUtils.Init lib s).result =
      Except.error (GSError.symbolResolutionError s.lib_path_ name) ∧
    (PropertyGraphUtils.Init lib s).resolved =
      requiredOrder.takeWhile (fun n => exportsSym lib n) ++ [name] := by
  obtain ⟨op, o1, o2, o3, o4, o5⟩ := lib
  cases op <;> rcases o1 with _ | f1 <;> rcases o2 with _ | f2 <;>
    rcases o3 with _ | f3 <;> rcases o4 with _ | f4 <;> rcases o5 with _ | f5 <;>
    first
      | exact Bool.noConfusion hopen
      | exact Option.noConfusion hmiss
      | (injection hmiss with h
         subst h
         exact ⟨rfl, rfl⟩)

/-- C1 witness: the spec scenario — a library exporting only `LoadGraph` and
`AddVerticesToGraph` makes `Init` fail naming `AddEdgesToGraph`, having
looked up exactly the three symbols up to and including it. -/
theorem init_fail_fast_first_missing_witness :
    libOnlyTwo.opens = true ∧
    firstMissing libOnlyTwo = some "AddEdgesToGraph" ∧
    ((PropertyGraphUtils.Init libOnlyTwo
        (mkPropertyGraphUtils "plugin-1" "/opt/libproperty_graph_frame.so")).result =
      Except.error (GSError.symbolResolutionError
        "/opt/libproperty_graph_frame.so" "AddEdgesToGraph") ∧
    (PropertyGraphUtils.Init libOnlyTwo
        (mkPropertyGraphUtils "plugin-1" "/opt/libproperty_graph_frame.so")).resolved =
      requiredOrder.takeWhile (fun n => exportsSym libOnlyTwo n) ++
        ["AddEdgesToGraph"]) :=
  ⟨rfl, rfl,
    init_fail_fast_first_missing libOnlyTwo
      (mkPropertyGraphUtils "plugin-1" "/opt/libproperty_graph_frame.so")
      "AddEdgesToGraph" rfl rfl⟩

/-- C2 counterexample: `Init` is not atomic on the object's fields. With the
library exporting only `LoadGraph` and `AddVerticesToGraph`, `Init` fails at
`AddEdgesToGraph`, yet the library handle and the two bindings resolved
before the failure remain stored in the object — a partial resolution state
persists, contradicting "no binding is left stored from a partially
completed resolution sequence". -/
theorem init_failure_leaves_partial_bindings :
    (PropertyGraphUtils.Init libOnlyTwo
        (mkPropertyGraphUtils "plugin-1" "/opt/libproperty_graph_frame.so")).result =
      Except.error (GSError.symbolResolutionError
        "/opt/libproperty_graph_frame.so" "AddEdgesToGraph") ∧
    (PropertyGraphUtils.Init libOnlyTwo
        (mkPropertyGraphUtils "plugin-1" "/opt/libproperty_graph_frame.so")).state.dl_handle_ =
      some () ∧
    (PropertyGraphUtils.Init libOnlyTwo
        (mkPropertyGraphUtils "plugin-1" "/opt/libproperty_graph_frame.so")).state.load_graph_ =
      some epLoadGraph ∧
    (PropertyGraphUtils.Init libOnlyTwo
        (mkPropertyGraphUtils "plugin-1" "/opt/libproperty_graph_frame.so")).state.add_vertices_to_graph_ =
      some epAddVertices :=
  ⟨rfl, rfl, rfl, rfl⟩

/-- C2 amended: when `Init` on a freshly constructed object fails at symbol
resolution, it returns the error (so the object is never reported ready),
but the fields are only prefix-atomic: the library handle, assigned right
after the successful open, remains stored, exactly the bindings whose
symbols were resolved successfully before the first missing one are stored
(they are the resolution trace minus its last, failing entry), and the first
missing binding and all later ones remain null. -/
theorem init_failure_prefix_state (lib : PluginLibrary) (id path name : String)
    (hopen : lib.opens = true) (hmiss : firstMissing lib = some name) :
    (PropertyGraphUtils.Init lib (mkPropertyGraphUtils id path)).result =
      Except.error (GSError.symbolResolutionError path name) ∧
    (PropertyGraphUtils.Init lib (mkPropertyGraphUtils id path)).state.dl_handle_ =
      some () ∧
    ∀ k ∈ requiredOrder,
      bindingIsSome
          (PropertyGraphUtils.Init lib (mkPropertyGraphUtils id path)).state k =
        decide (k ∈
          (PropertyGraphUtils.Init lib
            (mkPropertyGraphUtils id path)).resolved.dropLast) := by
  obtain ⟨op, o1, o2, o3, o4, o5⟩ := lib
  cases op <;> rcases o1 with _ | f1 <;> rcases o2 with _ | f2 <;>
    rcases o3 with _ | f3 <;> rcases o4 with _ | f4 <;> rcases o5 with _ | f5 <;>
    first
      | exact Bool.noConfusion hopen
      | exact Option.noConfusion hmiss
      | (injection hmiss with h
         subst h
         refine ⟨rfl, rfl, ?_⟩
         intro k hk
         simp only [requiredOrder, List.mem_cons, List.not_mem_nil,
           or_false] at hk
         rcases hk with rfl | rfl | rfl | rfl | rfl <;> rfl)

/-- C2 amended witness: the prefix-state theorem applied to the
two-symbol library of the spec scenario. -/
theorem init_failure_prefix_state_witness :
    libOnlyTwo.opens = true ∧
    firstMissing libOnlyTwo = some "AddEdgesToGraph" ∧
    ((PropertyGraphUtils.Init libOnlyTwo
        (mkPropertyGraphUtils "plugin-1" "/opt/libproperty_graph_frame.so")).result =
      Except.error (GSError.symbolResolutionError
        "/opt/libproperty_graph_frame.so" "AddEdgesToGraph") ∧
    (PropertyGraphUtils.Init libOnlyTwo
        (mkPropertyGraphUtils "plugin-1"
          "/opt/libproperty_graph_frame.so")).state.dl_handle_ = some () ∧
    ∀ k ∈ requiredOrder,
      bindingIsSome
          (PropertyGraphUtils.Init libOnlyTwo
            (mkPropertyGraphUtils "plugin-1"
              "/opt/libproperty_graph_frame.so")).state k =
        decide (k ∈
          (PropertyGraphUtils.Init libOnlyTwo
            (mkPropertyGraphUtils "plugin-1"
              "/opt/libproperty_graph_frame.so")).resolved.dropLast)) :=
  ⟨rfl, rfl,
    init_failure_prefix_state libOnlyTwo "plugin-1"
      "/opt/libproperty_graph_frame.so" "AddEdgesToGraph" rfl rfl⟩

/-- C6: for every library that opens and exports all five required symbols,
`Init` on a freshly constructed object succeeds (returns the ok result),
looks up all five symbols, stores the handle and all five bindings, and every
operation method then runs its entry point rather than hitting a null
binding (conversions shown under the experimental build, where they reach
the library). -/
theorem init_full_export_success (lib : PluginLibrary) (id path : String)
    (f1 : LoadGraphT) (f2 : AddVerticesToGraphT) (f3 : AddEdgesToGraphT)
    (f4 : ToArrowFragmentT) (f5 : ToDynamicFragmentT)
    (hopen : lib.opens = true) (h1 : lib.loadGraphSym = some f1)
    (h2 : lib.addVerticesSym = some f2) (h3 : lib.addEdgesSym = some f3)
    (h4 : lib.toArrowSym = some f4) (h5 : lib.toDynamicSym = some f5) :
    (PropertyGraphUtils.Init lib (mkPropertyGraphUtils id path)).result =
      Except.ok () ∧
    (PropertyGraphUtils.Init lib (mkPropertyGraphUtils id path)).resolved =
      requiredOrder ∧
    (PropertyGraphUtils.Init lib (mkPropertyGraphUtils id path)).state =
      { mkPropertyGraphUtils id path with
        dl_handle_ := some ()
        load_graph_ := some f1
        add_vertices_to_graph_ := some f2
        add_edges_to_graph_ := some f3
        to_arrow_fragment_ := some f4
        to_dynamic_fragment_ := some f5 } ∧
    ∀ (frag_id : ObjectID) (comm_spec : CommSpec) (client : Client)
      (graph_name : String) (params : GSParams) (wrapper_in : FragPtr)
      (dst_graph_name : String),
      (PropertyGraphUtils.LoadGraph
          (PropertyGraphUtils.Init lib (mkPropertyGraphUtils id path)).state
          comm_spec client graph_name params).outcome ≠
        MethodOutcome.nullDeref ∧
      (PropertyGraphUtils.AddVerticesToGraph
          (PropertyGraphUtils.Init lib (mkPropertyGraphUtils id path)).state
          frag_id comm_spec client graph_name params).outcome ≠
        MethodOutcome.nullDeref ∧
      (PropertyGraphUtils.AddEdgesToGraph
          (PropertyGraphUtils.Init lib (mkPropertyGraphUtils id path)).state
          frag_id comm_spec client graph_name params).outcome ≠
        MethodOutcome.nullDeref ∧
      (PropertyGraphUtils.ToArrowFragment true
          (PropertyGraphUtils.Init lib (mkPropertyGraphUtils id path)).state
          client comm_spec wrapper_in dst_graph_name).outcome ≠
        MethodOutcome.nullDeref ∧
      (PropertyGraphUtils.ToDynamicFragment true
          (PropertyGraphUtils.Init lib (mkPropertyGraphUtils id path)).state
          comm_spec wrapper_in dst_graph_name).outcome ≠
        MethodOutcome.nullDeref := by
  obtain ⟨op, o1, o2, o3, o4, o5⟩ := lib
  simp only at hopen h1 h2 h3 h4 h5
  subst hopen h1 h2 h3 h4 h5
  refine ⟨rfl, rfl, rfl, ?_⟩
  intro frag_id comm_spec client graph_name params wrapper_in dst_graph_name
  exact ⟨fun h => MethodOutcome.noConfusion h, fun h => MethodOutcome.noConfusion h,
    fun h => MethodOutcome.noConfusion h, fun h => MethodOutcome.noConfusion h,
    fun h => MethodOutcome.noConfusion h⟩

/-- C6 witness: the full-export theorem applied to the concrete library
exporting all five stub entry points. -/
theorem init_full_export_success_witness :
    fullLib.opens = true ∧
    fullLib.loadGraphSym = some epLoadGraph ∧
    fullLib.addVerticesSym = some epAddVertices ∧
    fullLib.addEdgesSym = some epAddEdges ∧
    fullLib.toArrowSym = some epToArrow ∧
    fullLib.toDynamicSym = some epToDynamic ∧
    ((PropertyGraphUtils.Init fullLib
        (mkPropertyGraphUtils "plugin-1"
          "/opt/libproperty_graph_frame.so")).result = Except.ok () ∧
    (PropertyGraphUtils.Init fullLib
        (mkPropertyGraphUtils "plugin-1"
          "/opt/libproperty_graph_frame.so")).resolved = requiredOrder ∧
    (PropertyGraphUtils.Init fullLib
        (mkPropertyGraphUtils "plugin-1"
          "/opt/libproperty_graph_frame.so")).state =
      { mkPropertyGraphUtils "plugin-1" "/opt/libproperty_graph_frame.so" with
        dl_handle_ := some ()
        load_graph_ := some epLoadGraph
        add_vertices_to_graph_ := some epAddVertices
        add_edges_to_graph_ := some epAddEdges
        to_arrow_fragment_ := some epToArrow
        to_dynamic_fragment_ := some epToDynamic } ∧
    ∀ (frag_id : ObjectID) (comm_spec : CommSpec) (client : Client)
      (graph_name : String) (params : GSParams) (wrapper_in : FragPtr)
      (dst_graph_name : String),
      (PropertyGraphUtils.LoadGraph
          (PropertyGraphUtils.Init fullLib
            (mkPropertyGraphUtils "plugin-1"
              "/opt/libproperty_graph_frame.so")).state
          comm_spec client graph_name params).outcome ≠
        MethodOutcome.nullDeref ∧
      (PropertyGraphUtils.AddVerticesToGraph
          (PropertyGraphUtils.Init fullLib
            (mkPropertyGraphUtils "plugin-1"
              "/opt/libproperty_graph_frame.so")).state
          frag_id comm_spec client graph_name params).outcome ≠
        MethodOutcome.nullDeref ∧
      (PropertyGraphUtils.AddEdgesToGraph
          (PropertyGraphUtils.Init fullLib
            (mkPropertyGraphUtils "plugin-1"
              "/opt/libproperty_graph_frame.so")).state
          frag_id comm_spec client graph_name params).outcome ≠
        MethodOutcome.nullDeref ∧
      (PropertyGraphUtils.ToArrowFragment true
          (PropertyGraphUtils.Init fullLib
            (mkPropertyGraphUtils "plugin-1"
              "/opt/libproperty_graph_frame.so")).state
          client comm_spec wrapper_in dst_graph_name).outcome ≠
        MethodOutcome.nullDeref ∧
      (PropertyGraphUtils.ToDynamicFragment true
          (PropertyGraphUtils.Init fullLib
            (mkPropertyGraphUtils "plugin-1"
              "/opt/libproperty_graph_frame.so")).state
          comm_spec wrapper_in dst_graph_name).outcome ≠
        MethodOutcome.nullDeref) :=
  ⟨rfl, rfl, rfl, rfl, rfl, rfl,
    init_full_export_success fullLib "plugin-1"
      "/opt/libproperty_graph_frame.so" epLoadGraph epAddVertices epAddEdges
      epToArrow epToDynamic rfl rfl rfl rfl rfl rfl⟩

/-- C10: `Init` resolves `ToArrowFragment` and `ToDynamicFragment`
unconditionally. The source `Init` contains no `EXPERIMENTAL_ON` branch (the
flag appears only inside the two conversion method bodies), so the embedded
`Init` takes no build flag and behaves identically in every build
configuration: whenever the library opens and exports the three load/mutate
symbols but not `ToArrowFragment`, `Init` fails with a
`SymbolResolutionError` naming `ToArrowFragment` after looking it up; and
with `ToArrowFragment` present but `ToDynamicFragment` absent, it fails
naming `ToDynamicFragment` — even though in a non-experimental build those
two methods only ever return `UnsupportedOperation`. -/
theorem init_requires_conversion_symbols (lib : PluginLibrary)
    (s : PropertyGraphUtils) (f1 : LoadGraphT) (f2 : AddVerticesToGraphT)
    (f3 : AddEdgesToGraphT) (hopen : lib.opens = true)
    (h1 : lib.loadGraphSym = some f1) (h2 : lib.addVerticesSym = some f2)
    (h3 : lib.addEdgesSym = some f3) :
    (lib.toArrowSym = none →
      (PropertyGraphUtils.Init lib s).result =
        Except.error
          (GSError.symbolResolutionError s.lib_path_ "ToArrowFragment") ∧
      "ToArrowFragment" ∈ (PropertyGraphUtils.Init lib s).resolved) ∧
    (∀ f4 : ToArrowFragmentT, lib.toArrowSym = some f4 →
      lib.toDynamicSym = none →
      (PropertyGraphUtils.Init lib s).result =
        Except.error
          (GSError.symbolResolutionError s.lib_path_ "ToDynamicFragment") ∧
      "ToDynamicFragment" ∈ (PropertyGraphUtils.Init lib s).resolved) := by
  obtain ⟨op, o1, o2, o3, o4, o5⟩ := lib
  simp only at hopen h1 h2 h3
  subst hopen h1 h2 h3
  constructor
  · intro hA
    subst hA
    refine ⟨rfl, ?_⟩
    show "ToArrowFragment" ∈
      ["LoadGraph", "AddVerticesToGraph", "AddEdgesToGraph", "ToArrowFragment"]
    decide
  · intro f4 hA hD
    subst hA hD
    refine ⟨rfl, ?_⟩
    show "ToDynamicFragment" ∈
      ["LoadGraph", "AddVerticesToGraph", "AddEdgesToGraph", "ToArrowFragment",
       "ToDynamicFragment"]
    decide

/-- C10 witness: the theorem applied to a concrete library missing only
`ToArrowFragment` and to one missing only `ToDynamicFragment`. -/
theorem init_requires_conversion_symbols_witness :
    (libNoToArrow.opens = true ∧ libNoToArrow.toArrowSym = none ∧
      (PropertyGraphUtils.Init libNoToArrow
          (mkPropertyGraphUtils "plugin-1"
            "/opt/libproperty_graph_frame.so")).result =
        Except.error (GSError.symbolResolutionError
          "/opt/libproperty_graph_frame.so" "ToArrowFragment")) ∧
    (libNoToDynamic.opens = true ∧ libNoToDynamic.toDynamicSym = none ∧
      (PropertyGraphUtils.Init libNoToDynamic
          (mkPropertyGraphUtils "plugin-1"
            "/opt/libproperty_graph_frame.so")).result =
        Except.error (GSError.symbolResolutionError
          "/opt/libproperty_graph_frame.so" "ToDynamicFragment")) :=
  ⟨⟨rfl, rfl,
      ((init_requires_conversion_symbols libNoToArrow
          (mkPropertyGraphUtils "plugin-1" "/opt/libproperty_graph_frame.so")
          epLoadGraph epAddVertices epAddEdges rfl rfl rfl rfl).1 rfl).1⟩,
    ⟨rfl, rfl,
      ((init_requires_conversion_symbols libNoToDynamic
          (mkPropertyGraphUtils "plugin-1" "/opt/libproperty_graph_frame.so")
          epLoadGraph epAddVertices epAddEdges rfl rfl rfl rfl).2 epToArrow
          rfl rfl).1⟩⟩
